import Mathlib

/-!
Verification of the Service Availability Probing Engine
(`src/availability-checker/checker.py`, class `ServiceChecker`).

Shallow embedding: time instants are natural numbers (the Python code
serializes `datetime.utcnow()` with a `'Z'` suffix; here we keep the raw
instant, which is what the claims compare).  The outcome of one HTTP
attempt is a tagged value `ProbeOutcome`: the `try`/`except` ladder of
`check_service` distinguishes a received response (with its status code),
`asyncio.TimeoutError`, `aiohttp.ClientError` (transport failure, carrying
its message) and any other `Exception` (carrying its message).
`check_all_services` fans out one probe per roster entry; the environment
`env` supplies, per roster position, the outcome and the start/end clock
readings of that probe.  Methods that may touch `self` are written in
state-passing style, returning the new `ServiceChecker`.
-/

/-- One roster entry: a dictionary with `name` and `url` keys. -/
structure Service where
  name : String
  url : String
deriving DecidableEq, Repr

/-- Classified outcome of one HTTP GET attempt, mirroring the
`try`/`except` ladder of `check_service`. -/
inductive ProbeOutcome where
  | response (code : Nat)
  | timeout
  | clientError (msg : String)
  | unexpected (msg : String)
deriving DecidableEq, Repr

/-- The result dictionary built by `check_service`. -/
structure ProbeResult where
  service : String
  url : String
  timestamp : Nat
  status : String
  status_code : Option Nat
  response_time_ms : Option Nat
  error : Option String
deriving DecidableEq, Repr

/-- The summary dictionary returned by `get_summary`. -/
structure Summary where
  total_services : Nat
  up : Nat
  down : Nat
  last_check : Option Nat
deriving DecidableEq, Repr

/-- State of a `ServiceChecker`; `__init__` stores the roster and the
timeout and sets `last_check_results = []`. -/
structure ServiceChecker where
  services : List Service
  timeout : Nat
  last_check_results : List ProbeResult
deriving DecidableEq, Repr

namespace ServiceChecker

/-- `ServiceChecker(services, timeout)`. -/
def init (services : List Service) (timeout : Nat) : ServiceChecker :=
  { services := services, timeout := timeout, last_check_results := [] }

/-- `check_service(session, service)`.  `startTime` is the clock when the
method is entered (`time.time()` / `datetime.utcnow()` are read there,
before the request is issued); `endTime` is the clock when the outcome is
known.  The result dictionary is created up front with
`status = 'down'`, `status_code = None`, `response_time_ms = None`,
`error = None` and `timestamp` taken at entry; each branch then updates
the fields exactly as the source does. -/
def check_service (_c : ServiceChecker) (service : Service)
    (outcome : ProbeOutcome) (startTime endTime : Nat) : ProbeResult :=
  let result : ProbeResult :=
    { service := service.name
      url := service.url
      timestamp := startTime
      status := "down"
      status_code := none
      response_time_ms := none
      error := none }
  match outcome with
  | .response code =>
      let r := { result with
                  status_code := some code
                  response_time_ms := some (endTime - startTime) }
      if code = 200 then { r with status := "up" } else r
  | .timeout =>
      { result with
          response_time_ms := some (endTime - startTime)
          error := some "Request timeout" }
  | .clientError msg =>
      { result with
          response_time_ms := some (endTime - startTime)
          error := some msg }
  | .unexpected msg =>
      { result with
          response_time_ms := some (endTime - startTime)
          error := some msg }

/-- `check_all_services()`: one probe per roster entry, gathered in
roster order (`asyncio.gather` preserves the order of its argument
list); the batch is stored in `last_check_results` and returned. -/
def check_all_services (c : ServiceChecker)
    (env : Nat → ProbeOutcome × Nat × Nat) :
    List ProbeResult × ServiceChecker :=
  let results := c.services.enum.map
    (fun p => c.check_service p.2 (env p.1).1 (env p.1).2.1 (env p.1).2.2)
  (results, { c with last_check_results := results })

/-- `get_last_results()`: returns `self.last_check_results`; the state is
unchanged. -/
def get_last_results (c : ServiceChecker) :
    List ProbeResult × ServiceChecker :=
  (c.last_check_results, c)

/-- `get_summary()`: if `last_check_results` is empty, report the whole
roster as down with no `last_check`; otherwise count the results whose
`status` is `'up'`, derive `down` by subtraction, and report the first
result's timestamp.  The state is unchanged. -/
def get_summary (c : ServiceChecker) : Summary × ServiceChecker :=
  if c.last_check_results.isEmpty then
    ({ total_services := c.services.length
       up := 0
       down := c.services.length
       last_check := none }, c)
  else
    let up_count :=
      (c.last_check_results.filter (fun r => r.status = "up")).length
    ({ total_services := c.services.length
       up := up_count
       down := c.last_check_results.length - up_count
       last_check := (c.last_check_results.head?).map ProbeResult.timestamp },
     c)

end ServiceChecker

/-- States of a `ServiceChecker` produced by construction followed by any
sequence of the three public operations, with arbitrary probe outcomes and
clock readings. -/
inductive Reachable : ServiceChecker → Prop where
  | init (services : List Service) (timeout : Nat) :
      Reachable (ServiceChecker.init services timeout)
  | run (c : ServiceChecker) (env : Nat → ProbeOutcome × Nat × Nat) :
      Reachable c → Reachable (c.check_all_services env).2
  | readResults (c : ServiceChecker) :
      Reachable c → Reachable (c.get_last_results).2
  | readSummary (c : ServiceChecker) :
      Reachable c → Reachable (c.get_summary).2

/-- `get_summary` returns the state unchanged. -/
theorem get_summary_snd (c : ServiceChecker) : (c.get_summary).2 = c := by
  unfold ServiceChecker.get_summary
  split <;> rfl

/-- In every reachable state, the stored batch is either empty (no run
yet) or has exactly one result per roster entry. -/
theorem reachable_results_length (c : ServiceChecker) (h : Reachable c) :
    c.last_check_results = [] ∨
      c.last_check_results.length = c.services.length := by
  induction h with
  | init services timeout => exact Or.inl rfl
  | run c env _ _ =>
      right
      simp [ServiceChecker.check_all_services]
  | readResults c _ ih => exact ih
  | readSummary c _ ih => rw [get_summary_snd]; exact ih

/-- C1: the returned result has `status = 'up'` if and only if an HTTP
response was received with status code exactly 200; every other outcome
(non-200 response, timeout, transport failure, unexpected exception)
yields `status = 'down'` (the status field is always one of the two). -/
theorem check_service_status_up_iff (c : ServiceChecker) (s : Service)
    (o : ProbeOutcome) (t₁ t₂ : Nat) :
    ((c.check_service s o t₁ t₂).status = "up" ↔
        o = ProbeOutcome.response 200) ∧
    ((c.check_service s o t₁ t₂).status = "up" ∨
     (c.check_service s o t₁ t₂).status = "down") := by
  cases o with
  | response code =>
      by_cases hc : code = 200 <;> simp [ServiceChecker.check_service, hc]
  | timeout => simp [ServiceChecker.check_service]
  | clientError msg => simp [ServiceChecker.check_service]
  | unexpected msg => simp [ServiceChecker.check_service]

/-- C2: for a roster of size N, `check_all_services` returns exactly N
results, and the result at index i is the probe result of the roster
entry at index i, whatever outcome and timing the environment assigns to
each probe. -/
theorem check_all_services_complete (c : ServiceChecker)
    (env : Nat → ProbeOutcome × Nat × Nat) :
    (c.check_all_services env).1.length = c.services.length ∧
    ∀ i (h : i < c.services.length),
      (c.check_all_services env).1[i]? =
        some (c.check_service (c.services.get ⟨i, h⟩)
          (env i).1 (env i).2.1 (env i).2.2) := by
  constructor
  · simp [ServiceChecker.check_all_services]
  · intro i h
    show (c.services.enum.map _)[i]? = _
    rw [List.getElem?_map, List.getElem?_enum]
    simp [List.getElem?_eq_getElem h]

/-- Witness for C2 at a one-entry roster: the probe at index 0 is the
result for the single roster entry. -/
theorem check_all_services_complete_witness :
    0 < (ServiceChecker.init [⟨"svc", "http://s"⟩] 10).services.length ∧
    ((ServiceChecker.init [⟨"svc", "http://s"⟩] 10).check_all_services
        (fun _ => (ProbeOutcome.response 200, 3, 8))).1[0]? =
      some { service := "svc", url := "http://s", timestamp := 3,
             status := "up", status_code := some 200,
             response_time_ms := some 5, error := none } := by
  refine ⟨by decide, ?_⟩
  exact ((check_all_services_complete (ServiceChecker.init [⟨"svc", "http://s"⟩] 10)
      (fun _ => (ProbeOutcome.response 200, 3, 8))).2 0 (by decide)).trans (by decide)

/-- C3: in every reachable state, `get_summary` satisfies
`up + down = totalServices = roster length`; before the first run (empty
stored batch) it reports `up = 0` and `down` equal to the full roster
count. -/
theorem get_summary_counts_consistent (c : ServiceChecker)
    (h : Reachable c) :
    (c.get_summary).1.up + (c.get_summary).1.down
        = (c.get_summary).1.total_services ∧
    (c.get_summary).1.total_services = c.services.length ∧
    (c.last_check_results = [] →
      (c.get_summary).1.up = 0 ∧
      (c.get_summary).1.down = c.services.length) := by
  by_cases he : c.last_check_results = []
  · simp [ServiceChecker.get_summary, he]
  · have hne : c.last_check_results.isEmpty = false := by
      simpa [List.isEmpty_iff] using he
    have hlen : c.last_check_results.length = c.services.length := by
      rcases reachable_results_length c h with h0 | h0
      · exact absurd h0 he
      · exact h0
    have hle :
        (c.last_check_results.filter (fun r => r.status = "up")).length
          ≤ c.last_check_results.length := List.length_filter_le _ _
    refine ⟨?_, ?_, fun hc => absurd hc he⟩
    · simp only [ServiceChecker.get_summary, hne, Bool.false_eq_true,
        if_false]
      omega
    · simp [ServiceChecker.get_summary, hne]

/-- Witness for C3 at a freshly constructed checker with one roster
entry. -/
theorem get_summary_counts_consistent_witness :
    Reachable (ServiceChecker.init [⟨"a", "http://a"⟩] 10) ∧
    ((ServiceChecker.init [⟨"a", "http://a"⟩] 10).get_summary).1.up
        + ((ServiceChecker.init [⟨"a", "http://a"⟩] 10).get_summary).1.down
        = ((ServiceChecker.init [⟨"a", "http://a"⟩] 10).get_summary).1.total_services :=
  ⟨Reachable.init _ _,
   (get_summary_counts_consistent (ServiceChecker.init [⟨"a", "http://a"⟩] 10)
      (Reachable.init _ _)).1⟩

/-- C4: the error field tracks the failure class: a non-200 response has
`status_code` set to the received code and `error = none`; a timeout has
`status_code = none` and `error = some "Request timeout"`; a transport
failure has `status_code = none` and `error` carrying the (non-null)
transport message. -/
theorem check_service_error_fields (c : ServiceChecker) (s : Service)
    (t₁ t₂ : Nat) :
    (∀ code, code ≠ 200 →
      (c.check_service s (ProbeOutcome.response code) t₁ t₂).status_code
          = some code ∧
      (c.check_service s (ProbeOutcome.response code) t₁ t₂).error = none) ∧
    ((c.check_service s ProbeOutcome.timeout t₁ t₂).status_code = none ∧
     (c.check_service s ProbeOutcome.timeout t₁ t₂).error
        = some "Request timeout") ∧
    (∀ msg,
      (c.check_service s (ProbeOutcome.clientError msg) t₁ t₂).status_code
          = none ∧
      (c.check_service s (ProbeOutcome.clientError msg) t₁ t₂).error
          = some msg) := by
  refine ⟨fun code hc => ?_, ⟨rfl, rfl⟩, fun msg => ⟨rfl, rfl⟩⟩
  simp [ServiceChecker.check_service, hc]

/-- Witness for C4 at a concrete non-200 response (HTTP 500). -/
theorem check_service_error_fields_witness :
    (500 : Nat) ≠ 200 ∧
    ((ServiceChecker.init [] 10).check_service ⟨"svc", "http://s"⟩
        (ProbeOutcome.response 500) 3 8).status_code = some 500 ∧
    ((ServiceChecker.init [] 10).check_service ⟨"svc", "http://s"⟩
        (ProbeOutcome.response 500) 3 8).error = none :=
  ⟨by decide,
   ((check_service_error_fields (ServiceChecker.init [] 10)
       ⟨"svc", "http://s"⟩ 3 8).1 500 (by decide)).1,
   ((check_service_error_fields (ServiceChecker.init [] 10)
       ⟨"svc", "http://s"⟩ 3 8).1 500 (by decide)).2⟩

/-- C5: `check_service` is a total function of the probe outcome — every
branch of the `try`/`except` ladder, including the catch-all for
unexpected exceptions, produces a `ProbeResult`.  An unexpected failure
is mapped to exactly the same shape as a transport error, preserving the
failure's textual description in the error field, with `status = 'down'`. -/
theorem check_service_total_captures_failure (c : ServiceChecker)
    (s : Service) (msg : String) (t₁ t₂ : Nat) :
    c.check_service s (ProbeOutcome.unexpected msg) t₁ t₂ =
      c.check_service s (ProbeOutcome.clientError msg) t₁ t₂ ∧
    (c.check_service s (ProbeOutcome.unexpected msg) t₁ t₂).error
        = some msg ∧
    (c.check_service s (ProbeOutcome.unexpected msg) t₁ t₂).status
        = "down" :=
  ⟨rfl, rfl, rfl⟩

/-- C6: the `last_check` field of the summary is the timestamp of the
first stored result when a batch exists, and `none` when no batch has
ever been produced. -/
theorem get_summary_last_check_field (c : ServiceChecker) :
    (∀ r rs, c.last_check_results = r :: rs →
      (c.get_summary).1.last_check = some r.timestamp) ∧
    (c.last_check_results = [] → (c.get_summary).1.last_check = none) := by
  constructor
  · intro r rs hc
    simp [ServiceChecker.get_summary, hc]
  · intro hc
    simp [ServiceChecker.get_summary, hc]

/-- Witness for C6: a checker holding one stored result reports that
result's timestamp; a freshly constructed checker reports `none`. -/
theorem get_summary_last_check_field_witness :
    (({ services := [⟨"a", "http://a"⟩], timeout := 10,
        last_check_results :=
          [{ service := "a", url := "http://a", timestamp := 7,
             status := "up", status_code := some 200,
             response_time_ms := some 5, error := none }] } :
        ServiceChecker).get_summary).1.last_check = some 7 ∧
    ((ServiceChecker.init [⟨"a", "http://a"⟩] 10).get_summary).1.last_check
        = none :=
  ⟨(get_summary_last_check_field _).1 _ [] rfl,
   (get_summary_last_check_field _).2 rfl⟩

/-- C7 counterexample: a probe that starts at instant 3 and whose outcome
becomes known at instant 8 carries timestamp 3 — the instant the probe
started, not the instant it completed. -/
theorem check_service_timestamp_not_completion :
    ((ServiceChecker.init [] 10).check_service ⟨"svc", "http://s"⟩
        (ProbeOutcome.response 200) 3 8).timestamp ≠ 8 := by decide

/-- C7 amended: for every probe outcome, the timestamp field is the
instant the probe started — it is read (as UTC with a `'Z'` suffix) when
the result dictionary is created, before the HTTP attempt is issued. -/
theorem check_service_timestamp_is_start (c : ServiceChecker)
    (s : Service) (o : ProbeOutcome) (t₁ t₂ : Nat) :
    (c.check_service s o t₁ t₂).timestamp = t₁ := by
  cases o with
  | response code =>
      by_cases hc : code = 200 <;> simp [ServiceChecker.check_service, hc]
  | timeout => rfl
  | clientError msg => rfl
  | unexpected msg => rfl

/-- C8: an empty roster is valid — `check_all_services` returns an empty
batch and `get_summary` reports zero totals with no `last_check`, both
before and after a run. -/
theorem empty_roster_behavior (timeout : Nat)
    (env : Nat → ProbeOutcome × Nat × Nat) :
    ((ServiceChecker.init [] timeout).check_all_services env).1 = [] ∧
    ((((ServiceChecker.init [] timeout).check_all_services env).2).get_summary).1
        = { total_services := 0, up := 0, down := 0, last_check := none } ∧
    ((ServiceChecker.init [] timeout).get_summary).1
        = { total_services := 0, up := 0, down := 0, last_check := none } :=
  ⟨rfl, rfl, rfl⟩

/-- C9: `get_last_results` and `get_summary` are pure reads — calling
either again on the state it returned yields the same value — and
`get_last_results` returns the empty sequence on a freshly constructed
checker. -/
theorem reads_idempotent (c : ServiceChecker) (services : List Service)
    (timeout : Nat) :
    (((c.get_last_results).2).get_last_results).1 = (c.get_last_results).1 ∧
    (((c.get_summary).2).get_summary).1 = (c.get_summary).1 ∧
    ((ServiceChecker.init services timeout).get_last_results).1 = [] := by
  refine ⟨rfl, ?_, rfl⟩
  rw [get_summary_snd]

/-- C10: frame conditions — `check_all_services` leaves `services` and
`timeout` unchanged (it only rewrites `last_check_results`), and the two
read operations leave the whole state unchanged. -/
theorem frame_effects (c : ServiceChecker)
    (env : Nat → ProbeOutcome × Nat × Nat) :
    ((c.check_all_services env).2.services = c.services ∧
     (c.check_all_services env).2.timeout = c.timeout) ∧
    (c.get_last_results).2 = c ∧
    (c.get_summary).2 = c :=
  ⟨⟨rfl, rfl⟩, rfl, get_summary_snd c⟩
